import Mathlib

/-!
Verification development for the PushPals OpenHands worker wrapper
(`apps/workerpals/scripts/openhands_executor.py`).

The Python source is shallowly embedded below.  Pure helpers become Lean
functions over `String`/`List`; the HTTP world (responses of the chat
endpoint, of the model-list endpoint, and exceptions raised by the socket
layer) is an explicit oracle argument, so every function stays executable
and total.  String primitives are re-implemented over `List Char` so that
all definitions reduce inside the kernel.
-/

/-! ## String primitives (kernel-computable re-implementations) -/

/-- Boolean list-prefix test, structural recursion so it reduces. -/
def listPrefixOf (n h : List Char) : Bool :=
  match n, h with
  | [], _ => true
  | _ :: _, [] => false
  | a :: ns, b :: hs => a = b && listPrefixOf ns hs

/-- Boolean list-infix test. -/
def listInfixOf (n h : List Char) : Bool :=
  match h with
  | [] => n.isEmpty
  | _ :: hs => listPrefixOf n h || listInfixOf n hs

/-- Python `needle in hay` on strings (substring containment). -/
def strContains (hay needle : String) : Bool := listInfixOf needle.data hay.data

/-- Python `str.lower()` (ASCII case folding is all the source needs). -/
def strLower (s : String) : String := ⟨s.data.map Char.toLower⟩

/-- The whitespace class stripped by Python `str.strip()`. -/
def pyIsSpace (c : Char) : Bool :=
  c = ' ' || c = '\t' || c = '\n' || c = '\r' || c = '\x0b' || c = '\x0c'

/-- Python `str.strip()`. -/
def strTrim (s : String) : String :=
  ⟨((s.data.dropWhile pyIsSpace).reverse.dropWhile pyIsSpace).reverse⟩

/-- Python `str.rstrip("/")`. -/
def rstripSlash (s : String) : String :=
  ⟨(s.data.reverse.dropWhile (· = '/')).reverse⟩

/-- Python `str.endswith(suffix)`. -/
def strEndsWith (s suffix : String) : Bool :=
  listPrefixOf suffix.data.reverse s.data.reverse

/-- Python `str.startswith(p)`. -/
def strStartsWith (s p : String) : Bool := listPrefixOf p.data s.data

/-- Drop the last `n` characters (used to strip a known suffix). -/
def strDropRight (s : String) (n : Nat) : String :=
  ⟨s.data.take (s.data.length - n)⟩

/-- Python `s[:n]`. -/
def strTake (s : String) (n : Nat) : String := ⟨s.data.take n⟩

/-- Python `s.split(sep, 1)` when `sep in s`: the part before the first
separator and the part after it. -/
def splitFirst (sep : Char) (s : String) : Option (String × String) :=
  let before := s.data.takeWhile (· ≠ sep)
  let rest := s.data.dropWhile (· ≠ sep)
  match rest with
  | [] => none
  | _ :: tail => some (⟨before⟩, ⟨tail⟩)

/-- Python `sep.join(l)`. -/
def strJoin (sep : String) : List String → String
  | [] => ""
  | [x] => x
  | x :: y :: xs => x ++ sep ++ strJoin sep (y :: xs)

/-- Python `list(dict.fromkeys(l))`: keep the first occurrence of every
element, tracking the keys already seen. -/
def dedupKeepFirstAux (seen : List String) : List String → List String
  | [] => []
  | x :: xs =>
      if x ∈ seen then dedupKeepFirstAux seen xs
      else x :: dedupKeepFirstAux (x :: seen) xs

/-- Python `list(dict.fromkeys(l))`. -/
def dedupKeepFirst (l : List String) : List String := dedupKeepFirstAux [] l

/-- Python `l[-n:]`. -/
def takeLast (n : Nat) (l : List String) : List String := l.drop (l.length - n)

/-! ## Constants from the source module -/

/-- `RESULT_PREFIX = "__PUSHPALS_OH_RESULT__ "`. -/
def RESULT_PREFIX : String := "__PUSHPALS_OH_RESULT__ "

/-- `DEFAULT_OPENHANDS_MODEL = "local-model"`. -/
def DEFAULT_OPENHANDS_MODEL : String := "local-model"

/-- `KNOWN_LITELLM_PROVIDER_PREFIXES` (a Python set; order is irrelevant,
only membership is consulted). -/
def KNOWN_LITELLM_PROVIDER_PREFIXES : List String :=
  [ "openai", "azure", "ollama", "openrouter", "anthropic", "google", "gemini",
    "vertex_ai", "bedrock", "cohere", "groq", "mistral", "huggingface",
    "replicate", "deepseek", "xai", "together_ai", "fireworks_ai" ]

/-! ## Model-name helpers (source lines 471-499, 630-647) -/

/-- `_model_is_provider_qualified` (lines 471-475). -/
def model_is_provider_qualified (model : String) : Bool :=
  match splitFirst '/' model with
  | none => false
  | some (provider, _) =>
      KNOWN_LITELLM_PROVIDER_PREFIXES.contains (strLower (strTrim provider))

/-- `_providerless_model_name` (lines 630-637). -/
def providerless_model_name (model : String) : String :=
  let normalized := strTrim model
  match splitFirst '/' normalized with
  | none => normalized
  | some (provider, rest) =>
      if KNOWN_LITELLM_PROVIDER_PREFIXES.contains (strLower (strTrim provider)) then
        strTrim rest
      else normalized

/-- `_normalize_litellm_model` (lines 491-499). -/
def normalize_litellm_model (model provider : String) : String :=
  let normalized := strTrim model
  if normalized = "" then normalized
  else if model_is_provider_qualified normalized then normalized
  else if provider = "" then normalized
  else provider ++ "/" ++ normalized

/-- `_is_embedding_model` (lines 640-647). -/
def is_embedding_model (model : String) : Bool :=
  let lowered := strLower (providerless_model_name model)
  strContains lowered "embedding" || strStartsWith lowered "embed-" ||
    strContains lowered "/embed" || strContains lowered "nomic-embed"

/-- `_is_model_load_failure` (lines 1135-1143). -/
def is_model_load_failure (error_text : String) : Bool :=
  let lowered := strLower error_text
  strContains lowered "failed to load model" ||
    strContains lowered "model loading was stopped" ||
    strContains lowered "insufficient system resources" ||
    strContains lowered "out of memory" ||
    (strContains lowered "model" && strContains lowered "not found")

/-- `_session_field_rejected` (lines 306-315). -/
def session_field_rejected (detail : String) : Bool :=
  let lowered := strLower detail
  strContains lowered "session_id" || strContains lowered "conversation_id" ||
    strContains lowered "id_slot" || strContains lowered "unknown field" ||
    strContains lowered "unknown property" ||
    strContains lowered "additional properties"

/-! ## Model selection (source lines 1116-1169) -/

/-- `_pick_configured_or_available_model` (lines 1116-1132).  The Python
`for`-loop that returns the first case-insensitive providerless match is
`List.find?`. -/
def pick_configured_or_available_model (configured_model : String)
    (available_models : List String) : String × String :=
  let configured := strTrim configured_model
  match available_models with
  | first :: _ =>
      if configured ≠ "" then
        let wanted := strLower (providerless_model_name configured)
        match available_models.find?
            (fun candidate => strLower (providerless_model_name candidate) = wanted) with
        | some candidate => (candidate, "configured")
        | none => (first, "available_fallback")
      else (first, "available_default")
  | [] =>
      if configured ≠ "" then (configured, "configured_unverified")
      else ( DEFAULT_OPENHANDS_MODEL, "default_local_model")

/-- `_fallback_models_after_load_failure` (lines 1146-1169).  The network
call `_discover_available_models` is passed in as its result
`(available_models, probe_detail)`. -/
def fallback_models_after_load_failure (provider failed_model : String)
    (discovered : List String × String) : List String × String :=
  let available_models := discovered.1
  let probe_detail := discovered.2
  let failed_norm := normalize_litellm_model failed_model provider
  let fromAvailable := available_models.filterMap (fun model =>
    let normalized := normalize_litellm_model model provider
    if normalized ≠ "" ∧ normalized ≠ failed_norm ∧ is_embedding_model normalized = false
    then some normalized else none)
  let default_fallback := normalize_litellm_model DEFAULT_OPENHANDS_MODEL provider
  let candidates := fromAvailable ++
    (if default_fallback ≠ "" ∧ default_fallback ≠ failed_norm ∧
        is_embedding_model default_fallback = false
     then [default_fallback] else [])
  (dedupKeepFirst candidates, probe_detail)

/-- The filter applied before fallback candidates join the live queue
(lines 1724-1727): drop anything already attempted or already pending. -/
def newFallbackCandidates (fallback_models attempted pending : List String) :
    List String :=
  fallback_models.filter (fun m => decide (m ∉ attempted ∧ m ∉ pending))

/-! ## The HTTP world as an oracle -/

/-- A Python exception as `_is_timeout_error` (lines 322-330) inspects it:
the `isinstance` facts plus the exception's string form. -/
structure PyExc where
  msg : String
  isTimeoutInstance : Bool
  urlErrorReason : Option String
deriving DecidableEq, Repr

/-- `_is_timeout_error` (lines 322-330). -/
def is_timeout_error (exc : PyExc) : Bool :=
  exc.isTimeoutInstance ||
    (match exc.urlErrorReason with
     | some reason =>
         strContains (strLower reason) "timed out" ||
           strContains (strLower reason) "timeout"
     | none => false) ||
    strContains (strLower exc.msg) "timed out" ||
    strContains (strLower exc.msg) "timeout"

/-- Outcome of one `urllib.request.urlopen` call: a response object, an
`HTTPError` with a status code and a readable body, or any other
exception. -/
inductive HttpAttempt where
  | success (status : Nat)
  | httpError (code : Nat) (body : String)
  | exc (e : PyExc)
deriving DecidableEq, Repr

/-- `true` when the attempt produced an HTTP response of any status. -/
def HttpAttempt.isHttpResponse : HttpAttempt → Bool
  | .success _ => true
  | .httpError _ _ => true
  | .exc _ => false

/-! ## Endpoint prober (source lines 588-627) -/

/-- `_llm_probe_urls` (lines 588-610). -/
def llm_probe_urls (base_url model : String) : List String :=
  let normalized := rstripSlash base_url
  let provider :=
    match splitFirst '/' model with
    | some (p, _) => strLower (strTrim p)
    | none => ""
  if provider = "ollama" then
    [normalized ++ "/api/tags", normalized ++ "/tags", normalized]
  else if strEndsWith normalized "/v1" then
    [normalized ++ "/models", normalized ++ "/chat/completions", normalized]
  else
    [normalized ++ "/v1/models", normalized ++ "/models", normalized]

/-- The probe loop of `_llm_endpoint_reachable` (lines 617-627).  `respond`
is the network: what `urlopen` does for each probe URL.  Also counts the
requests issued. -/
def endpointProbeGo (respond : String → HttpAttempt) :
    List String → String → (Bool × String) × Nat
  | [], last_error => ((false, last_error), 0)
  | probe :: rest, _ =>
      match respond probe with
      | .success status => ((true, probe ++ " -> " ++ toString status), 1)
      | .httpError code _ => ((true, probe ++ " -> HTTP " ++ toString code), 1)
      | .exc e =>
          let r := endpointProbeGo respond rest (probe ++ ": " ++ e.msg)
          (r.1, r.2 + 1)

/-- `_llm_endpoint_reachable` (lines 613-627), returning `(reachable,
detail)` plus the number of network requests issued. -/
def llm_endpoint_reachable (base_url model : String)
    (respond : String → HttpAttempt) : (Bool × String) × Nat :=
  if base_url = "" then ((true, ""), 0)
  else endpointProbeGo respond (llm_probe_urls base_url model) "connection failed"

/-! ## Chat preflight (source lines 306-381, 650-742) -/

/-- `_chat_completion_url` (lines 650-661). -/
def chat_completion_url (base_url provider : String) : String :=
  let normalized := rstripSlash base_url
  if provider = "ollama" then
    if strEndsWith normalized "/api/chat" then normalized
    else normalized ++ "/api/chat"
  else if strEndsWith normalized "/chat/completions" then normalized
  else if strEndsWith normalized "/v1" then normalized ++ "/chat/completions"
  else normalized ++ "/v1/chat/completions"

/-- The fixed part of a chat request body (lines 677-690): the model name,
the single ping message, and the provider-specific sampling shape
(ollama: `stream=False, options={temperature 0, num_predict 1}`;
openai: `temperature 0, max_tokens 1`). -/
structure ChatRequestBase where
  model : String
  messages : List (String × String)
  ollamaShape : Bool
deriving DecidableEq, Repr

/-- A request body dict together with the optional session-hint fields that
`_session_hint_body_variants` may merge into it. -/
structure HintedBody (α : Type) where
  base : α
  user : Option String := none
  session_id : Option String := none
  conversation_id : Option String := none
  id_slot : Option Int := none
deriving DecidableEq, Repr

/-- Number of the session-hint fields `user`/`session_id`/`conversation_id`
present in a body. -/
def HintedBody.hintFieldCount (b : HintedBody α) : Nat :=
  (if b.user.isSome then 1 else 0) + (if b.session_id.isSome then 1 else 0) +
    (if b.conversation_id.isSome then 1 else 0)

/-- `_session_hint_body_variants` (lines 354-381).  `lmstudioSlot` is the
result of `_lmstudio_slot_id()` (an env/config read). -/
def session_hint_body_variants (body : HintedBody α) (provider session_user : String)
    (lmstudioSlot : Option Int) : List (HintedBody α) :=
  if provider ≠ "openai" ∨ session_user = "" then [body]
  else
    let variants : List (HintedBody α) :=
      [ { body with user := some session_user, session_id := some session_user,
                    conversation_id := some session_user },
        { body with user := some session_user },
        body ]
    match lmstudioSlot with
    | none => variants
    | some slot_id =>
        variants.flatMap (fun variant => [{ variant with id_slot := some slot_id }, variant])

/-- The minimal single-token ping body built by `_llm_model_chat_preflight`
(lines 676-690): the providerless model name, the one `"ping"` user
message, and the provider-specific sampling shape (ollama:
`stream=False, options={temperature 0, num_predict 1}`; openai:
`temperature 0, max_tokens 1`). -/
def preflightChatBody (provider model : String) : HintedBody ChatRequestBase :=
  { base := { model := providerless_model_name model,
              messages := [("user", "ping")],
              ollamaShape := provider = "ollama" } }

/-- The body-variant loop of `_llm_model_chat_preflight` (lines 698-742).
`respond` gives the outcome of the idx-th POST.  Returns `(ok, detail)`
plus the number of requests issued. -/
def chatPreflightGo (url : String) (timeout : Nat) (respond : Nat → HttpAttempt) :
    List (HintedBody α) → Nat → String → (Bool × String) × Nat
  | [], _, last_detail => ((false, last_detail), 0)
  | _ :: rest, idx, _prev_detail =>
      match respond idx with
      | .success status =>
          if 200 ≤ status ∧ status < 300 then
            ((true, url ++ " -> " ++ toString status), 1)
          else
            let r := chatPreflightGo url timeout respond rest (idx + 1)
              (url ++ " -> HTTP " ++ toString status)
            (r.1, r.2 + 1)
      | .httpError code body_text =>
          let detail := url ++ " -> HTTP " ++ toString code ++
            (if body_text ≠ "" then " (" ++ strTrim (strTake body_text 180) ++ ")" else "")
          if code = 400 ∧ rest.isEmpty = false ∧ session_field_rejected body_text then
            let r := chatPreflightGo url timeout respond rest (idx + 1) detail
            (r.1, r.2 + 1)
          else if is_model_load_failure body_text then ((false, detail), 1)
          else if strContains (strLower body_text) "model" ∧
              strContains (strLower body_text) "not found" then ((false, detail), 1)
          else if code = 401 ∨ code = 403 then ((true, detail), 1)
          else ((false, detail), 1)
      | .exc e =>
          if is_timeout_error e then
            ((false, url ++ ": timed out after " ++ toString timeout ++ "s"), 1)
          else ((false, url ++ ": " ++ e.msg), 1)

/-- `_llm_model_chat_preflight` (lines 664-742), returning `(ok, detail)`
plus the number of requests issued.  The request headers (content type,
bearer auth from `api_key`, session-hint headers) do not influence any
branch of the function and live inside the oracle. -/
def llm_model_chat_preflight (base_url provider api_key model session_user : String)
    (timeout : Nat) (lmstudioSlot : Option Int) (respond : Nat → HttpAttempt) :
    (Bool × String) × Nat :=
  let _ := api_key
  if base_url = "" then ((true, "base URL unset"), 0)
  else
    chatPreflightGo (chat_completion_url base_url provider) timeout respond
      (session_hint_body_variants (preflightChatBody provider model) provider
        session_user lmstudioSlot)
      0 (chat_completion_url base_url provider ++ ": preflight request failed")

/-! ## Tool-need classifier outcome (source lines 990-1039) -/

/-- The dict returned by `_tool_need_preflight`. -/
structure ToolDecision where
  needs_tools : Bool
  why : String
  plan : String
  first_command : String
  error : String
  hard_fail : Bool
deriving DecidableEq, Repr

/-- A successfully parsed classifier JSON object: the raw `needs_tools`
value (a JSON boolean or anything else, kept as its string form) and the
three string fields (lines 1022-1030). -/
structure ParsedToolJson where
  needs_tools_raw : Bool ⊕ String
  why : String
  plan : String
  first_command : String
deriving DecidableEq, Repr

/-- The truthy-word test of line 1026. -/
def truthyWord (s : String) : Bool :=
  let t := strLower (strTrim s)
  t = "1" || t = "true" || t = "yes" || t = "on"

/-- The parse-and-classify tail of `_tool_need_preflight` (lines 998-1039):
`parsed` is the outcome of JSON-parsing the model text (strict mode demands
the whole response be one JSON object), `parse_error_detail` the diagnostic
string assembled at lines 1008-1012 on failure. -/
def tool_need_classify (require_strict_json : Bool)
    (parsed : Option ParsedToolJson) (parse_error_detail : String) : ToolDecision :=
  match parsed with
  | none =>
      { needs_tools := true, why := "tool preflight response parse failed",
        plan := "", first_command := "", error := parse_error_detail,
        hard_fail := require_strict_json }
  | some p =>
      let needs_tools :=
        match p.needs_tools_raw with
        | .inl b => b
        | .inr s => truthyWord s
      { needs_tools := needs_tools,
        why := strTake (strTrim p.why) 240,
        plan := strTake (strTrim p.plan) 600,
        first_command := strTake (strTrim p.first_command) 180,
        error := "", hard_fail := false }

/-! ## Result envelopes -/

/-- A result dict as emitted on the result line.  `stdout := none` models a
dict built without a `"stdout"` key (as `_fail` and several failure returns
of `_run_agentic_task_execute` do). -/
structure Envelope where
  ok : Bool
  summary : String
  stdout : Option String := none
  stderr : String
  exitCode : Int
deriving DecidableEq, Repr

/-- The dict built by `_fail` (lines 131-139): note it has no `stdout` key. -/
def failEnvelope (summary : String) (stderr : Option String) (exit_code : Int) :
    Envelope :=
  { ok := false, summary := summary, stdout := none, stderr := stderr.getD "",
    exitCode := exit_code }

/-! ## Execution attempt state machine (source lines 1679-1977) -/

/-- Outcome of the guarded agent-construction-and-run block (lines
1828-1898): either it completes and `_summarize_git_changes` reports the
changed paths, or some exception with string form `err` escapes. -/
inductive RunOutcome where
  | success (changed_paths : List String)
  | raises (err : String)
deriving DecidableEq, Repr

/-- The external world consulted by the candidate loop, keyed by the active
model: the chat preflight result, the re-discovery result used by
`_fallback_models_after_load_failure`, the tool-need classifier decision,
and the agent run outcome. -/
structure LoopOracle where
  preflight : String → Bool × String
  discovery : String → List String × String
  toolEnabled : Bool
  toolDecision : String → ToolDecision
  runOutcome : String → RunOutcome

/-- Which models were actually preflighted and actually sent into an
agent run (LLM/Agent/Conversation constructed). -/
structure LoopTrace where
  preflighted : List String
  runsStarted : List String
deriving DecidableEq, Repr

/-- Mutable state of the candidate loop (lines 1680-1693). -/
structure LoopState where
  models_to_try : List String
  attempted_models : List String
  preflight_failures : List String
  last_error_text : String
  trace : LoopTrace
deriving DecidableEq, Repr

/-- The queue-exhaustion envelope (lines 1962-1977). -/
def exhaustEnvelope (attempted_models preflight_failures : List String)
    (last_error_text : String) : Envelope :=
  { ok := false
    summary := "OpenHands model selection exhausted with no successful execution"
    stdout := none
    stderr :=
      "Attempted models: " ++
        (if attempted_models.isEmpty then "(none)"
         else strJoin ", " attempted_models) ++ "\n" ++
      (if preflight_failures.isEmpty then ""
       else "Preflight failures:\n" ++
         strJoin "\n" ((takeLast 5 preflight_failures).map (fun entry => "- " ++ entry)) ++
         "\n") ++
      "Last error: " ++
        (if last_error_text = "" then "(none captured)" else last_error_text)
    exitCode := 2 }

/-- The terminal envelope when a preflight load failure finds no fallback
(lines 1737-1746). -/
def preflightFailEnvelope (preflight_detail : String) (attempted_models : List String)
    (probe_detail : String) : Envelope :=
  { ok := false
    summary := "OpenHands model preflight failed and no fallback model succeeded"
    stdout := none
    stderr := preflight_detail ++ "\n" ++
      "Attempted models: " ++ strJoin ", " attempted_models ++ "\n" ++
      "Model probe detail: " ++ probe_detail
    exitCode := 2 }

/-- The terminal envelope on a strict-mode classifier parse failure
(lines 1792-1803). -/
def hardFailEnvelope (d : ToolDecision) : Envelope :=
  let detail := strTrim d.error
  { ok := false
    summary := "Tool preflight returned non-JSON response"
    stdout := none
    stderr := "Preflight must return one valid JSON object in a single response.\n" ++
      "Reason: " ++ (if d.why = "" then "parse failed" else d.why) ++ "\n" ++
      "Detail: " ++ (if detail = "" then "(none)" else detail)
    exitCode := 2 }

/-- The short-circuit success envelope when the classifier reports no tools
needed (lines 1804-1818). -/
def noToolsEnvelope (d : ToolDecision) : Envelope :=
  let why_text := strTrim d.why
  let plan_text := strTrim d.plan
  let plan_lines :=
    (if why_text ≠ "" then ["Reason: " ++ why_text] else []) ++
    (if plan_text ≠ "" then ["Plan: " ++ plan_text] else [])
  { ok := true
    summary := "Preflight handled request without repository tools"
    stdout := some (if plan_lines.isEmpty then "No repository tools required."
                    else strJoin "\n" plan_lines)
    stderr := ""
    exitCode := 0 }

/-- The success envelope built from `_summarize_git_changes` (lines
1880-1898). -/
def successEnvelope (changed_paths : List String) : Envelope :=
  match changed_paths with
  | [] =>
      { ok := true
        summary := "Executed task via OpenHands agent (no file changes detected)"
        stdout := some "No modified files were detected after execution."
        stderr := ""
        exitCode := 0 }
  | _ =>
      let listed := strJoin "\n" ((changed_paths.take 40).map (fun p => "- " ++ p)) ++
        (if changed_paths.length > 40 then "\n- ..." else "")
      { ok := true
        summary := "Executed task and modified " ++ toString changed_paths.length ++
          " file(s)"
        stdout := some ("Changed files:\n" ++ listed)
        stderr := ""
        exitCode := 0 }

/-- The terminal envelope when a run-time load failure finds no fallback
(lines 1921-1930). -/
def runLoadFailEnvelope (err_text : String) (attempted_models : List String)
    (probe_detail : String) : Envelope :=
  { ok := false
    summary := "OpenHands model failed to load and no fallback model succeeded"
    stdout := none
    stderr := err_text ++ "\n" ++
      "Attempted models: " ++ strJoin ", " attempted_models ++ "\n" ++
      "Model probe detail: " ++ probe_detail
    exitCode := 2 }

/-- The terminal envelope for connection errors (lines 1932-1943). -/
def connectionFailEnvelope (err_text active_model base_url : String) : Envelope :=
  { ok := false
    summary := "OpenHands could not connect to the configured local LLM endpoint"
    stdout := none
    stderr := err_text ++ "\n" ++
      "Model: " ++ active_model ++ "\n" ++
      "Base URL: " ++ base_url ++ "\n" ++
      "Verify the host LLM server is running and reachable from Docker."
    exitCode := 2 }

/-- The terminal envelope for context-window overflow (lines 1944-1954). -/
def contextWindowEnvelope (err_text : String) : Envelope :=
  { ok := false
    summary := "OpenHands prompt exceeded LM Studio context window"
    stdout := none
    stderr := err_text ++ "\n" ++
      "Reduce overall prompt/context size, increase model context window, " ++
      "or use a model/runtime with larger context support."
    exitCode := 2 }

/-- The agent-construction-and-run phase for one candidate (lines
1756-1960), entered after a successful chat preflight and after the
tool-need gate.  The first step corresponds to constructing the LLM, the
Agent and the Conversation and launching the run, so the candidate is
recorded in `runsStarted`. -/
def runPhase (provider base_url : String) (o : LoopOracle) (active : String)
    (rest : List String) (s : LoopState) : LoopState ⊕ (Envelope × LoopState) :=
  let s := { s with trace := { s.trace with
    runsStarted := s.trace.runsStarted ++ [active] } }
  match o.runOutcome active with
  | .success changed_paths => .inr (successEnvelope changed_paths, s)
  | .raises err_text =>
      let s := { s with last_error_text := err_text }
      if is_model_load_failure err_text then
        let fb := fallback_models_after_load_failure provider active (o.discovery active)
        let new_candidates := newFallbackCandidates fb.1 s.attempted_models rest
        if new_candidates.isEmpty then
          .inr (runLoadFailEnvelope err_text s.attempted_models fb.2, s)
        else .inl { s with models_to_try := rest ++ new_candidates }
      else if strContains (strLower err_text) "connection error" ∨
          strContains (strLower err_text) "connection refused" then
        .inr (connectionFailEnvelope err_text active base_url, s)
      else if strContains (strLower err_text) "cannot truncate prompt with n_keep" ∧
          strContains (strLower err_text) "n_ctx" then
        .inr (contextWindowEnvelope err_text, s)
      else
        .inr ({ ok := false, summary := "OpenHands agent task execution failed",
                stdout := none, stderr := err_text, exitCode := 1 }, s)

/-- The tool-need gate in front of the run (lines 1760-1826): a strict-mode
parse failure is terminal, a no-tools decision short-circuits to success,
otherwise the run starts (possibly with a first-command hint appended to
the user message, which affects no later branch). -/
def toolGate (provider base_url : String) (o : LoopOracle) (active : String)
    (rest : List String) (s : LoopState) : LoopState ⊕ (Envelope × LoopState) :=
  if o.toolEnabled then
    let d := o.toolDecision active
    if d.hard_fail then .inr (hardFailEnvelope d, s)
    else if d.needs_tools then runPhase provider base_url o active rest s
    else .inr (noToolsEnvelope d, s)
  else runPhase provider base_url o active rest s

/-- One iteration of the candidate loop in `_run_agentic_task_execute`
(lines 1693-1960), after popping `active` off the queue: either the loop
continues with a new state (`inl`) or the function returns an envelope
(`inr`). -/
def loopIter (provider base_url : String) (o : LoopOracle) (active : String)
    (rest : List String) (s : LoopState) : LoopState ⊕ (Envelope × LoopState) :=
  if active ∈ s.attempted_models then
    .inl { s with models_to_try := rest }
  else
    let s1 := { s with models_to_try := rest,
                       attempted_models := s.attempted_models ++ [active] }
    if is_embedding_model active then .inl s1
    else
      let s2 := { s1 with trace := { s1.trace with
        preflighted := s1.trace.preflighted ++ [active] } }
      let pf := o.preflight active
      if pf.1 then toolGate provider base_url o active rest s2
      else
        let entry := active ++ ": " ++ pf.2
        let s3 := { s2 with
          preflight_failures := s2.preflight_failures ++ [entry],
          last_error_text := entry }
        if is_model_load_failure pf.2 ∨
            (strContains (strLower pf.2) "model" ∧
              strContains (strLower pf.2) "not found") then
          let fb := fallback_models_after_load_failure provider active (o.discovery active)
          let new_candidates := newFallbackCandidates fb.1 s3.attempted_models rest
          if new_candidates.isEmpty then
            .inr (preflightFailEnvelope pf.2 s3.attempted_models fb.2, s3)
          else .inl { s3 with models_to_try := rest ++ new_candidates }
        else .inl s3

/-- The `while models_to_try:` loop (lines 1693-1977) with fuel; `none`
means the fuel ran out before the loop settled. -/
def runSelectionLoop (provider base_url : String) (o : LoopOracle) :
    Nat → LoopState → Option (Envelope × LoopState)
  | 0, _ => none
  | fuel + 1, s =>
      match s.models_to_try with
      | [] =>
          some (exhaustEnvelope s.attempted_models s.preflight_failures
            s.last_error_text, s)
      | active :: rest =>
          match loopIter provider base_url o active rest s with
          | .inl s2 => runSelectionLoop provider base_url o fuel s2
          | .inr done => some done

/-- The loop state as seeded at lines 1680-1683: the queue holds the single
resolved model, nothing attempted yet. -/
def initialLoopState (model : String) : LoopState :=
  { models_to_try := [model], attempted_models := [], preflight_failures := [],
    last_error_text := "", trace := { preflighted := [], runsStarted := [] } }

/-! ## Timeout recovery loop -/

/-- Result of the recovery-wrapped agent run: either the run completed, or
an exception propagated; both record how many run calls were made and how
many recovery-hint messages were sent. -/
inductive RecoveryResult where
  | completed (runs_made hints_sent : Nat)
  | propagated (e : PyExc) (runs_made hints_sent : Nat)
deriving DecidableEq, Repr

/-- Modelled from the spec: the Timeout Recovery Loop of spec section 4.8
is not present in the sources under version control here (the checked-in
`_run_agentic_task_execute` calls `conversation.run` once, lines
1874-1878).  Per the spec it wraps the run call; on an exception matching
the endpoint-timeout signatures (the source's `_is_timeout_error`) it
sends one compact recovery hint into the conversation, waits a fixed
backoff and retries, up to the configured attempt count; any other
exception, or exhaustion of the attempts, propagates.  `runAttempt k` is
the outcome of the k-th run call (`none` = completed). -/
def timeoutRecoveryGo (runAttempt : Nat → Option PyExc) :
    Nat → Nat → Nat → RecoveryResult
  | runs_made, hints_sent, 0 =>
      match runAttempt runs_made with
      | none => .completed (runs_made + 1) hints_sent
      | some e => .propagated e (runs_made + 1) hints_sent
  | runs_made, hints_sent, r + 1 =>
      match runAttempt runs_made with
      | none => .completed (runs_made + 1) hints_sent
      | some e =>
          if is_timeout_error e then
            timeoutRecoveryGo runAttempt (runs_made + 1) (hints_sent + 1) r
          else .propagated e (runs_made + 1) hints_sent

/-- Modelled from the spec: entry point of the Timeout Recovery Loop with
`recoveryAttempts = R` recovery attempts remaining and no runs made yet. -/
def timeoutRecoveryLoop (runAttempt : Nat → Option PyExc) (recoveryAttempts : Nat) :
    RecoveryResult :=
  timeoutRecoveryGo runAttempt 0 0 recoveryAttempts

/-! ## The result-line protocol and `main` (source lines 126-139, 2174-2292) -/

/-- JSON string escaping (the escapes `json.dumps` applies that can occur
in the envelope fields). -/
def jsonEscapeChar (c : Char) : List Char :=
  if c = '"' then ['\\', '"']
  else if c = '\\' then ['\\', '\\']
  else if c = '\n' then ['\\', 'n']
  else if c = '\t' then ['\\', 't']
  else if c = '\r' then ['\\', 'r']
  else [c]

/-- JSON string literal for a field value. -/
def jsonString (s : String) : String := "\"" ++ ⟨s.data.flatMap jsonEscapeChar⟩ ++ "\""

/-- The keys present in the serialized result dict, in insertion order: in
every dict this module emits, `stdout` (when present at all) sits between
`summary` and `stderr`. -/
def envelopeKeys (e : Envelope) : List String :=
  ["ok", "summary"] ++ (if e.stdout.isSome then ["stdout"] else []) ++
    ["stderr", "exitCode"]

/-- `json.dumps` of the result dict. -/
def jsonOfEnvelope (e : Envelope) : String :=
  "\x7b" ++ jsonString "ok" ++ ": " ++ (if e.ok then "true" else "false") ++
    ", " ++ jsonString "summary" ++ ": " ++ jsonString e.summary ++
    (match e.stdout with
     | some out => ", " ++ jsonString "stdout" ++ ": " ++ jsonString out
     | none => "") ++
    ", " ++ jsonString "stderr" ++ ": " ++ jsonString e.stderr ++
    ", " ++ jsonString "exitCode" ++ ": " ++ toString e.exitCode ++ "\x7d"

/-- `_emit` (lines 126-128): the one line written to standard output. -/
def emitLine (e : Envelope) : String := RESULT_PREFIX ++ jsonOfEnvelope e ++ "\n"

/-- The payload fields `main` inspects after decoding (lines 2183-2203):
`kind`/`repo` are `none` when missing or not a string, and
`instruction`/`lane` are already passed through the source's
`str(... or "").strip()` normalizations. -/
structure DecodedPayload where
  kind : Option String
  paramsIsDict : Bool
  repo : Option String
  instruction : String
  lane : String
deriving DecidableEq, Repr

/-- The external world `main` interacts with: the argv/payload decode, the
agentic executor's result, the OpenHands SDK import, the deterministic
command summary from `_job_to_command`, and the workspace execution
outcome `(exit_code, stdout, stderr)` or the exception that escaped. -/
structure MainWorld where
  hasArgv : Bool
  decoded : Option DecodedPayload
  decodeErrMsg : String
  agenticResult : Envelope
  sdkImportOk : Bool
  sdkImportErr : String
  preferredSummary : String
  execOutcome : Except String (Int × String × String)

/-- `main` (lines 2174-2288), modelled as the list of envelopes written to
standard output together with the process exit code.  Every `return _fail
(...)` contributes its single envelope via `failEnvelope`. -/
def mainEmits (w : MainWorld) : List Envelope × Int :=
  if w.hasArgv = false then
    ([failEnvelope "Missing base64 job payload" none 2], 2)
  else
    match w.decoded with
    | none =>
        ([failEnvelope ("Failed to decode job payload: " ++ w.decodeErrMsg) none 2], 2)
    | some p =>
        match p.kind with
        | none => ([failEnvelope "Invalid payload: missing \x27kind\x27" none 2], 2)
        | some kind =>
            if kind = "" then
              ([failEnvelope "Invalid payload: missing \x27kind\x27" none 2], 2)
            else if p.paramsIsDict = false then
              ([failEnvelope "Invalid payload: \x27params\x27 must be an object" none 2], 2)
            else
              match p.repo with
              | none => ([failEnvelope "Invalid payload: missing \x27repo\x27" none 2], 2)
              | some repo =>
                  if repo = "" then
                    ([failEnvelope "Invalid payload: missing \x27repo\x27" none 2], 2)
                  else if kind ≠ "task.execute" then
                    ([failEnvelope ("Unsupported job kind \x27" ++ kind ++
                      "\x27. WorkerPal accepts only task.execute.") none 2], 2)
                  else if p.instruction = "" then
                    ([failEnvelope "task.execute requires \x27instruction\x27" none 2], 2)
                  else if p.lane ≠ "openhands" ∧ p.lane ≠ "deterministic" then
                    ([failEnvelope ("task.execute requires lane=\x27openhands\x27 " ++
                      "or lane=\x27deterministic\x27") none 2], 2)
                  else if p.lane = "openhands" then
                    ([w.agenticResult],
                      if w.agenticResult.ok then 0 else w.agenticResult.exitCode)
                  else if w.sdkImportOk = false then
                    ([failEnvelope ("OpenHands SDK is not available in worker runtime. " ++
                        "Install openhands-sdk/openhands-agent-server/openhands-workspace " ++
                        "and ensure imports are compatible.")
                      (some w.sdkImportErr) 3], 3)
                  else
                    match w.execOutcome with
                    | .error excText =>
                        ([failEnvelope ("OpenHands execution failed for " ++ kind)
                          (some excText) 1], 1)
                    | .ok (exit_code, out, err) =>
                        let okRun := exit_code = 0
                        let summary :=
                          if w.preferredSummary ≠ "" then w.preferredSummary
                          else if okRun then kind ++ " passed via OpenHands"
                          else kind ++ " failed via OpenHands (exit " ++
                            toString exit_code ++ ")"
                        ([{ ok := okRun, summary := summary, stdout := some out,
                            stderr := err, exitCode := exit_code }],
                          if okRun then 0
                          else if exit_code = 0 then 1 else exit_code)

/-- The loop state carried out of one iteration, whether the loop
continues (`inl`) or the function returns (`inr`). -/
def loopOutState : LoopState ⊕ (Envelope × LoopState) → LoopState
  | .inl s => s
  | .inr (_, s) => s

/-! ## Concrete worlds used to evaluate the definitions -/

/-- A network that rejects the first request body with an HTTP 400 naming
`session_id` and accepts the second body variant. -/
def c7respond : Nat → HttpAttempt :=
  fun i => if i = 0 then .httpError 400 "unknown field session_id" else .success 200

/-- A run attempt that always raises a timeout-signature exception. -/
def c2attempt : Nat → Option PyExc :=
  fun _ => some { msg := "request timed out", isTimeoutInstance := false,
                  urlErrorReason := none }

/-- An oracle whose classifier always reports a strict-mode parse failure. -/
def c3oracle : LoopOracle :=
  { preflight := fun _ => (true, "ok")
    discovery := fun _ => ([], "")
    toolEnabled := true
    toolDecision := fun _ => tool_need_classify true none "bad json"
    runOutcome := fun _ => .success [] }

/-- An oracle that an embedding-only queue never consults. -/
def c1oracle : LoopOracle :=
  { preflight := fun _ => (false, "unused")
    discovery := fun _ => ([], "")
    toolEnabled := false
    toolDecision := fun _ => tool_need_classify false none ""
    runOutcome := fun _ => .raises "unused" }

/-- A process invocation with no argv payload. -/
def c8world : MainWorld :=
  { hasArgv := false, decoded := none, decodeErrMsg := ""
    agenticResult := failEnvelope "" none 1
    sdkImportOk := false, sdkImportErr := "", preferredSummary := ""
    execOutcome := Except.error "" }

/-! ## General lemmas -/

theorem mem_dedupKeepFirstAux (a : String) :
    ∀ (l seen : List String), a ∈ dedupKeepFirstAux seen l ↔ a ∈ l ∧ a ∉ seen := by
  intro l
  induction l with
  | nil => intro seen; simp [dedupKeepFirstAux]
  | cons x xs ih =>
      intro seen
      by_cases hx : x ∈ seen
      · rw [dedupKeepFirstAux, if_pos hx, ih]
        constructor
        · rintro ⟨h1, h2⟩; exact ⟨List.mem_cons_of_mem _ h1, h2⟩
        · rintro ⟨h1, h2⟩
          rcases List.mem_cons.mp h1 with h | h
          · exact absurd (h ▸ hx) h2
          · exact ⟨h, h2⟩
      · rw [dedupKeepFirstAux, if_neg hx]
        constructor
        · intro h
          rcases List.mem_cons.mp h with h1 | h1
          · subst h1; exact ⟨List.mem_cons_self _ _, hx⟩
          · obtain ⟨h2, h3⟩ := (ih (x :: seen)).mp h1
            exact ⟨List.mem_cons_of_mem _ h2, fun hs => h3 (List.mem_cons_of_mem _ hs)⟩
        · rintro ⟨h1, h2⟩
          rcases List.mem_cons.mp h1 with h3 | h3
          · subst h3; exact List.mem_cons_self _ _
          · by_cases hax : a = x
            · subst hax; exact List.mem_cons_self _ _
            · refine List.mem_cons_of_mem _ ((ih (x :: seen)).mpr ⟨h3, fun hs => ?_⟩)
              rcases List.mem_cons.mp hs with h4 | h4
              · exact hax h4
              · exact h2 h4

theorem mem_dedupKeepFirst (a : String) (l : List String) :
    a ∈ dedupKeepFirst l ↔ a ∈ l := by
  rw [dedupKeepFirst, mem_dedupKeepFirstAux]; simp

theorem nodup_dedupKeepFirstAux :
    ∀ (l seen : List String), (dedupKeepFirstAux seen l).Nodup := by
  intro l
  induction l with
  | nil => intro seen; simp [dedupKeepFirstAux]
  | cons x xs ih =>
      intro seen
      by_cases hx : x ∈ seen
      · rw [dedupKeepFirstAux, if_pos hx]; exact ih seen
      · rw [dedupKeepFirstAux, if_neg hx]
        refine List.nodup_cons.mpr ⟨fun hmem => ?_, ih (x :: seen)⟩
        exact ((mem_dedupKeepFirstAux x xs (x :: seen)).mp hmem).2 (List.mem_cons_self x seen)

theorem nodup_dedupKeepFirst (l : List String) : (dedupKeepFirst l).Nodup :=
  nodup_dedupKeepFirstAux l []

theorem dedupKeepFirstAux_append_singleton (d : String) :
    ∀ (xs seen : List String), d ∉ seen → d ∉ xs →
      dedupKeepFirstAux seen (xs ++ [d]) = dedupKeepFirstAux seen xs ++ [d] := by
  intro xs
  induction xs with
  | nil =>
      intro seen hds _
      simp [dedupKeepFirstAux, hds]
  | cons x xs ih =>
      intro seen hds hdx
      have hdx' : d ∉ xs := fun h => hdx (List.mem_cons_of_mem _ h)
      have hdnx : d ≠ x := fun h => hdx (h ▸ List.mem_cons_self x xs)
      by_cases hx : x ∈ seen
      · rw [List.cons_append, dedupKeepFirstAux, if_pos hx, dedupKeepFirstAux, if_pos hx]
        exact ih seen hds hdx'
      · rw [List.cons_append, dedupKeepFirstAux, if_neg hx, dedupKeepFirstAux, if_neg hx]
        rw [List.cons_append]
        congr 1
        refine ih (x :: seen) (fun h => ?_) hdx'
        rcases List.mem_cons.mp h with h1 | h1
        · exact hdnx h1
        · exact hds h1

theorem listPrefixOf_append_self (xs ys : List Char) :
    listPrefixOf xs (xs ++ ys) = true := by
  induction xs with
  | nil => rfl
  | cons a as ih => simp [listPrefixOf, ih]

/-! ## C10 -/

/-- C10: with an empty resolved base URL, both `_llm_endpoint_reachable`
and `_llm_model_chat_preflight` report success immediately — `(True, "")`
and `(True, "base URL unset")` respectively — and issue zero network
requests, for every possible network behaviour. -/
theorem C10_empty_base_url_skips_validation
    (model provider api_key session_user : String) (timeout : Nat)
    (slot : Option Int) (respondProbe : String → HttpAttempt)
    (respondChat : Nat → HttpAttempt) :
    llm_endpoint_reachable "" model respondProbe = ((true, ""), 0) ∧
    llm_model_chat_preflight "" provider api_key model session_user timeout slot
        respondChat = ((true, "base URL unset"), 0) :=
  ⟨rfl, rfl⟩

/-! ## C4 -/

/-- C4: when discovery is non-empty and the non-empty configured model has
no case-insensitive providerless match among the discovered models,
`_pick_configured_or_available_model` returns the first discovered model
with reason `available_fallback`; when discovery is empty and a model is
configured, it returns that (stripped) configured model with reason
`configured_unverified`, never the fixed default. -/
theorem C4_pick_configured_or_available_model
    (configured_model : String) (available_models : List String) :
    (∀ first rest, available_models = first :: rest →
      strTrim configured_model ≠ "" →
      (∀ c ∈ available_models,
        strLower (providerless_model_name c) ≠
          strLower (providerless_model_name (strTrim configured_model))) →
      pick_configured_or_available_model configured_model available_models =
        (first, "available_fallback")) ∧
    (available_models = [] → strTrim configured_model ≠ "" →
      pick_configured_or_available_model configured_model available_models =
        (strTrim configured_model, "configured_unverified")) := by
  constructor
  · intro first rest hav hconf habs
    subst hav
    have hfind : (first :: rest).find?
        (fun candidate => decide (strLower (providerless_model_name candidate) =
          strLower (providerless_model_name (strTrim configured_model)))) = none := by
      rw [List.find?_eq_none]
      intro x hx
      simpa using habs x hx
    simp only [pick_configured_or_available_model]
    rw [if_pos hconf, hfind]
  · intro hav hconf
    subst hav
    simp only [pick_configured_or_available_model]
    rw [if_pos hconf]

/-- C4 witness: discovery `["llama-3-8b"]` with configured `"gpt-4"` picks
the discovered model as `available_fallback`; empty discovery with
configured `"gpt-4"` keeps it as `configured_unverified`. -/
theorem C4_witness :
    pick_configured_or_available_model "gpt-4" ["llama-3-8b"] =
      ("llama-3-8b", "available_fallback") ∧
    pick_configured_or_available_model "gpt-4" [] =
      ("gpt-4", "configured_unverified") := by
  constructor
  · exact (C4_pick_configured_or_available_model "gpt-4" ["llama-3-8b"]).1
      "llama-3-8b" [] rfl (by decide) (by decide)
  · exact (C4_pick_configured_or_available_model "gpt-4" []).2 rfl (by decide)

/-! ## C6 -/

theorem session_hint_body_variants_cons {α : Type} (body : HintedBody α)
    (provider session_user : String) (slot : Option Int) :
    ∃ v vs, session_hint_body_variants body provider session_user slot = v :: vs := by
  unfold session_hint_body_variants
  split
  · exact ⟨body, [], rfl⟩
  · cases slot with
    | none => exact ⟨_, _, rfl⟩
    | some slot_id => exact ⟨_, _, rfl⟩

/-- C6 counterexample: the chat preflight answers `ok = False` to an HTTP
401 whose body carries a model-not-found signature, because the body-text
load-failure checks run before the 401/403 acceptance rule (lines
726-733); the claim "whenever the endpoint answers 401 or 403, ok is True"
is therefore false as stated. -/
theorem C6_counterexample :
    (llm_model_chat_preflight "http://localhost:1234" "openai" "" "openai/m" "" 10 none
      (fun _ => .httpError 401 "model not found")).1.1 = false := by decide

/-- C6 (amended): `_llm_model_chat_preflight` always returns an `(ok,
detail)` pair (it is total over every network behaviour), and an HTTP
401/403 answer is treated as success provided its body does not match a
model-load-failure or model-not-found signature (`_is_model_load_failure`,
whose clauses include the `"model"`/`"not found"` check of lines
728-730). -/
theorem C6_preflight_auth_status_treated_ok
    (base_url provider api_key model session_user : String) (timeout : Nat)
    (slot : Option Int) (respond : Nat → HttpAttempt) (code : Nat) (body_text : String)
    (hbase : base_url ≠ "")
    (hresp : respond 0 = .httpError code body_text)
    (hcode : code = 401 ∨ code = 403)
    (hclean : is_model_load_failure body_text = false) :
    (llm_model_chat_preflight base_url provider api_key model session_user timeout
      slot respond).1.1 = true := by
  obtain ⟨v, vs, hv⟩ := session_hint_body_variants_cons (preflightChatBody provider model)
    provider session_user slot
  have hmnf : ¬(strContains (strLower body_text) "model" = true ∧
      strContains (strLower body_text) "not found" = true) := by
    rintro ⟨h1, h2⟩
    unfold is_model_load_failure at hclean
    simp [h1, h2] at hclean
  have h400 : ¬(code = 400 ∧ vs.isEmpty = false ∧
      session_field_rejected body_text = true) := by
    rintro ⟨hc, -, -⟩
    rcases hcode with h | h <;> omega
  have hload : ¬(is_model_load_failure body_text = true) := by
    simp [hclean]
  unfold llm_model_chat_preflight
  rw [if_neg hbase, hv]
  simp only [chatPreflightGo, hresp]
  rw [if_neg h400, if_neg hload, if_neg hmnf, if_pos hcode]

/-- C6 witness: a plain 401 (body `"unauthorized"`) is accepted by the
preflight. -/
theorem C6_witness :
    (llm_model_chat_preflight "http://h" "openai" "key" "openai/m" "" 10 none
      (fun _ => .httpError 401 "unauthorized")).1.1 = true :=
  C6_preflight_auth_status_treated_ok "http://h" "openai" "key" "openai/m" "" 10 none
    (fun _ => .httpError 401 "unauthorized") 401 "unauthorized"
    (by decide) rfl (Or.inl rfl) (by decide)

/-! ## C9 -/

theorem endpointProbeGo_true_iff (respond : String → HttpAttempt) :
    ∀ (probes : List String) (last_error : String),
      ((endpointProbeGo respond probes last_error).1.1 = true ↔
        ∃ p ∈ probes, (respond p).isHttpResponse = true) := by
  intro probes
  induction probes with
  | nil => intro last_error; simp [endpointProbeGo]
  | cons p rest ih =>
      intro last_error
      cases h : respond p with
      | success status => simp [endpointProbeGo, h, HttpAttempt.isHttpResponse]
      | httpError code body => simp [endpointProbeGo, h, HttpAttempt.isHttpResponse]
      | exc e => simp [endpointProbeGo, h, HttpAttempt.isHttpResponse, ih]

theorem endpointProbeGo_all_exc (respond : String → HttpAttempt) :
    ∀ (probes : List String) (last_error p : String) (e : PyExc),
      (∀ q ∈ probes, (respond q).isHttpResponse = false) →
      probes.getLast? = some p → respond p = .exc e →
      (endpointProbeGo respond probes last_error).1 = (false, p ++ ": " ++ e.msg) := by
  intro probes
  induction probes with
  | nil => intro last_error p e _ hlast _; simp at hlast
  | cons q rest ih =>
      intro last_error p e hall hlast hpe
      have hq : (respond q).isHttpResponse = false := hall q (List.mem_cons_self _ _)
      cases hresp : respond q with
      | success status => rw [hresp] at hq; simp [HttpAttempt.isHttpResponse] at hq
      | httpError code body => rw [hresp] at hq; simp [HttpAttempt.isHttpResponse] at hq
      | exc e' =>
          cases rest with
          | nil =>
              simp only [List.getLast?_singleton, Option.some.injEq] at hlast
              subst hlast
              rw [hresp] at hpe
              injection hpe with he
              subst he
              simp [endpointProbeGo, hresp]
          | cons r rs =>
              have hlast' : (r :: rs).getLast? = some p := by
                simpa [List.getLast?_cons_cons] using hlast
              have hall' : ∀ x ∈ r :: rs, (respond x).isHttpResponse = false :=
                fun x hx => hall x (List.mem_cons_of_mem _ hx)
              simp only [endpointProbeGo, hresp]
              exact ih (q ++ ": " ++ e'.msg) p e hall' hlast' hpe

/-- C9: for every non-empty base URL, `_llm_endpoint_reachable` reports
`reachable = True` exactly when some probe URL in the ordered
`_llm_probe_urls` list yields an HTTP response of any status, and when all
probes fail at the network level it reports `False` with the last probe
error; being a total function of the network behaviour, it never raises. -/
theorem C9_llm_endpoint_reachable
    (base_url model : String) (respond : String → HttpAttempt)
    (hbase : base_url ≠ "") :
    (((llm_endpoint_reachable base_url model respond).1.1 = true) ↔
      ∃ p ∈ llm_probe_urls base_url model, (respond p).isHttpResponse = true) ∧
    (∀ p e, (∀ q ∈ llm_probe_urls base_url model, (respond q).isHttpResponse = false) →
      (llm_probe_urls base_url model).getLast? = some p → respond p = .exc e →
      (llm_endpoint_reachable base_url model respond).1 =
        (false, p ++ ": " ++ e.msg)) := by
  unfold llm_endpoint_reachable
  rw [if_neg hbase]
  exact ⟨endpointProbeGo_true_iff respond _ _,
    fun p e h1 h2 h3 => endpointProbeGo_all_exc respond _ _ p e h1 h2 h3⟩

/-- C9 witness: with every probe failing at the network level the prober
reports unreachable with the last probe error; with an HTTP 500 on the
first probe it reports reachable. -/
theorem C9_witness :
    (llm_endpoint_reachable "http://h" "m" (fun _ =>
      .exc { msg := "connection refused", isTimeoutInstance := false,
             urlErrorReason := none })).1 = (false, "http://h: connection refused") ∧
    (llm_endpoint_reachable "http://h" "m" (fun _ => .httpError 500 "boom")).1.1 = true := by
  constructor
  · exact (C9_llm_endpoint_reachable "http://h" "m" _ (by decide)).2 "http://h"
      { msg := "connection refused", isTimeoutInstance := false, urlErrorReason := none }
      (fun q _ => rfl) (by decide) rfl
  · exact (C9_llm_endpoint_reachable "http://h" "m" _ (by decide)).1.mpr
      ⟨"http://h/v1/models", by decide, rfl⟩

/-! ## C7 -/

theorem chatPreflightGo_cascade {α : Type} (url : String) (timeout : Nat)
    (respond : Nat → HttpAttempt) :
    ∀ (variants : List (HintedBody α)) (start : Nat) (ld : String) (k status : Nat),
      k < variants.length →
      (∀ i, i < k → ∃ b, respond (start + i) = .httpError 400 b ∧
        session_field_rejected b = true) →
      respond (start + k) = .success status → 200 ≤ status → status < 300 →
      chatPreflightGo url timeout respond variants start ld =
        ((true, url ++ " -> " ++ toString status), k + 1) := by
  intro variants
  induction variants with
  | nil => intro start ld k status hk; simp at hk
  | cons v rest ih =>
      intro start ld k status hk hrej hacc h2a h2b
      cases k with
      | zero =>
          have h0 : respond start = .success status := by simpa using hacc
          simp only [chatPreflightGo, h0]
          rw [if_pos ⟨h2a, h2b⟩]
      | succ k' =>
          obtain ⟨b, hb, hbrej⟩ := hrej 0 (Nat.succ_pos k')
          have hb0 : respond start = .httpError 400 b := by simpa using hb
          have hrestE : rest.isEmpty = false := by
            cases rest
            · simp at hk
            · rfl
          have hk' : k' < rest.length := by
            simp only [List.length_cons] at hk
            omega
          have hrej' : ∀ i, i < k' → ∃ b2, respond (start + 1 + i) = .httpError 400 b2 ∧
              session_field_rejected b2 = true := by
            intro i hi
            obtain ⟨b2, hb2, hb2r⟩ := hrej (i + 1) (by omega)
            refine ⟨b2, ?_, hb2r⟩
            have heq : start + (i + 1) = start + 1 + i := by omega
            rwa [heq] at hb2
          have hacc' : respond (start + 1 + k') = .success status := by
            have heq : start + (k' + 1) = start + 1 + k' := by omega
            rwa [heq] at hacc
          simp only [chatPreflightGo, hb0]
          rw [if_pos ⟨trivial, hrestE, hbrej⟩]
          rw [ih (start + 1) _ k' status hk' hrej' hacc' h2a h2b]

/-- C7: for the openai-compatible provider with a session user (and no
LM Studio slot id), the chat preflight's body variants carry 3, 1 and 0
session-hint fields in that order; when the network answers the first `k`
requests with HTTP 400 bodies naming a rejected session field and accepts
the `k`-th variant with a 2xx status, the preflight succeeds after exactly
`k + 1` requests. -/
theorem C7_session_hint_variant_cascade
    (base_url api_key model session_user : String) (timeout : Nat)
    (respond : Nat → HttpAttempt) (k status : Nat)
    (hbase : base_url ≠ "") (huser : session_user ≠ "") (hk : k < 3)
    (hrej : ∀ i, i < k → ∃ b, respond i = .httpError 400 b ∧
      session_field_rejected b = true)
    (hacc : respond k = .success status) (h2a : 200 ≤ status) (h2b : status < 300) :
    ((session_hint_body_variants (preflightChatBody "openai" model) "openai"
        session_user none).map HintedBody.hintFieldCount = [3, 1, 0]) ∧
    llm_model_chat_preflight base_url "openai" api_key model session_user timeout
        none respond =
      ((true, chat_completion_url base_url "openai" ++ " -> " ++ toString status),
        k + 1) := by
  have hcond : ¬(("openai" : String) ≠ "openai" ∨ session_user = "") := by
    simp [huser]
  have hvar : session_hint_body_variants (preflightChatBody "openai" model) "openai"
      session_user none =
      [ { preflightChatBody "openai" model with
            user := some session_user
            session_id := some session_user
            conversation_id := some session_user },
        { preflightChatBody "openai" model with user := some session_user },
        preflightChatBody "openai" model ] := by
    unfold session_hint_body_variants
    rw [if_neg hcond]
  constructor
  · rw [hvar]
    simp [HintedBody.hintFieldCount, preflightChatBody]
  · unfold llm_model_chat_preflight
    rw [if_neg hbase, hvar]
    refine chatPreflightGo_cascade (chat_completion_url base_url "openai") timeout
      respond _ 0 _ k status (by simpa using hk) ?_ ?_ h2a h2b
    · intro i hi
      obtain ⟨b, h1, h2⟩ := hrej i hi
      exact ⟨b, by rwa [Nat.zero_add], h2⟩
    · rwa [Nat.zero_add]

/-- C7 witness: with the first body rejected (`400`, `"unknown field
session_id"`) and the second accepted with 200, the preflight succeeds on
the stripped variant after two requests. -/
theorem C7_witness :
    llm_model_chat_preflight "http://h/v1" "openai" "" "openai/m" "alice" 10 none
      c7respond = ((true, "http://h/v1/chat/completions -> 200"), 2) := by
  have h := (C7_session_hint_variant_cascade "http://h/v1" "" "openai/m" "alice" 10
    c7respond 1 200 (by decide) (by decide) (by decide) ?_ rfl (by decide) (by decide)).2
  · exact h
  · intro i hi
    have hi0 : i = 0 := by omega
    subst hi0
    exact ⟨"unknown field session_id", rfl, by decide⟩

/-! ## C5 -/

theorem mem_fallback_fromAvailable {provider failed_model m : String}
    {l : List String}
    (hm : m ∈ l.filterMap (fun model =>
      if normalize_litellm_model model provider ≠ "" ∧
         normalize_litellm_model model provider ≠
           normalize_litellm_model failed_model provider ∧
         is_embedding_model (normalize_litellm_model model provider) = false
      then some (normalize_litellm_model model provider) else none)) :
    (∃ a ∈ l, normalize_litellm_model a provider = m) ∧
    m ≠ normalize_litellm_model failed_model provider ∧
    is_embedding_model m = false := by
  rw [List.mem_filterMap] at hm
  obtain ⟨a, hal, ha⟩ := hm
  by_cases hp : normalize_litellm_model a provider ≠ "" ∧
      normalize_litellm_model a provider ≠
        normalize_litellm_model failed_model provider ∧
      is_embedding_model (normalize_litellm_model a provider) = false
  · rw [if_pos hp] at ha
    injection ha with ha
    subst ha
    exact ⟨⟨a, hal, rfl⟩, hp.2.1, hp.2.2⟩
  · rw [if_neg hp] at ha
    cases ha

/-- C5: `_fallback_models_after_load_failure` returns a duplicate-free
candidate list; the normalized failed model never appears in it; no
embedding-flagged model appears in it; the normalized fixed default model
is appended (whenever it is itself non-empty, distinct from the failed
model and not embedding-flagged), and sits in last position whenever no
discovered model normalizes to it; and the queue-extension filter of lines
1724-1727 only admits candidates that are neither attempted nor already
pending. -/
theorem C5_fallback_model_list
    (provider failed_model : String) (discovered : List String × String) :
    ((fallback_models_after_load_failure provider failed_model discovered).1.Nodup) ∧
    (normalize_litellm_model failed_model provider ∉
      (fallback_models_after_load_failure provider failed_model discovered).1) ∧
    (∀ m ∈ (fallback_models_after_load_failure provider failed_model discovered).1,
      is_embedding_model m = false) ∧
    (normalize_litellm_model DEFAULT_OPENHANDS_MODEL provider ≠ "" →
      normalize_litellm_model DEFAULT_OPENHANDS_MODEL provider ≠
        normalize_litellm_model failed_model provider →
      is_embedding_model (normalize_litellm_model DEFAULT_OPENHANDS_MODEL provider) =
        false →
      (normalize_litellm_model DEFAULT_OPENHANDS_MODEL provider ∈
        (fallback_models_after_load_failure provider failed_model discovered).1) ∧
      ((∀ a ∈ discovered.1, normalize_litellm_model a provider ≠
          normalize_litellm_model DEFAULT_OPENHANDS_MODEL provider) →
        (fallback_models_after_load_failure provider failed_model discovered).1.getLast? =
          some (normalize_litellm_model DEFAULT_OPENHANDS_MODEL provider))) ∧
    (∀ fb attempted pending : List String,
      ∀ m ∈ newFallbackCandidates fb attempted pending,
        m ∈ fb ∧ m ∉ attempted ∧ m ∉ pending) := by
  simp only [fallback_models_after_load_failure]
  refine ⟨nodup_dedupKeepFirst _, ?_, ?_, ?_, ?_⟩
  · intro hmem
    rw [mem_dedupKeepFirst, List.mem_append] at hmem
    rcases hmem with h | h
    · exact (mem_fallback_fromAvailable h).2.1 rfl
    · by_cases hp : normalize_litellm_model DEFAULT_OPENHANDS_MODEL provider ≠ "" ∧
          normalize_litellm_model DEFAULT_OPENHANDS_MODEL provider ≠
            normalize_litellm_model failed_model provider ∧
          is_embedding_model (normalize_litellm_model DEFAULT_OPENHANDS_MODEL provider) =
            false
      · rw [if_pos hp] at h
        rcases List.mem_singleton.mp h with h2
        exact hp.2.1 h2.symm
      · rw [if_neg hp] at h
        cases h
  · intro m hmem
    rw [mem_dedupKeepFirst, List.mem_append] at hmem
    rcases hmem with h | h
    · exact (mem_fallback_fromAvailable h).2.2
    · by_cases hp : normalize_litellm_model DEFAULT_OPENHANDS_MODEL provider ≠ "" ∧
          normalize_litellm_model DEFAULT_OPENHANDS_MODEL provider ≠
            normalize_litellm_model failed_model provider ∧
          is_embedding_model (normalize_litellm_model DEFAULT_OPENHANDS_MODEL provider) =
            false
      · rw [if_pos hp] at h
        rcases List.mem_singleton.mp h with h2
        rw [h2]
        exact hp.2.2
      · rw [if_neg hp] at h
        cases h
  · intro h1 h2 h3
    constructor
    · rw [mem_dedupKeepFirst, List.mem_append]
      right
      rw [if_pos ⟨h1, h2, h3⟩]
      exact List.mem_singleton.mpr rfl
    · intro habs
      have hnot : normalize_litellm_model DEFAULT_OPENHANDS_MODEL provider ∉
          discovered.1.filterMap (fun model =>
            if normalize_litellm_model model provider ≠ "" ∧
               normalize_litellm_model model provider ≠
                 normalize_litellm_model failed_model provider ∧
               is_embedding_model (normalize_litellm_model model provider) = false
            then some (normalize_litellm_model model provider) else none) := by
        intro hmem
        obtain ⟨⟨a, hal, ha⟩, -, -⟩ := mem_fallback_fromAvailable hmem
        exact habs a hal ha
      rw [if_pos ⟨h1, h2, h3⟩]
      rw [dedupKeepFirst, dedupKeepFirstAux_append_singleton _ _ _
        (List.not_mem_nil _) hnot]
      rw [List.getLast?_concat]
  · intro fb attempted pending m hm
    rw [newFallbackCandidates, List.mem_filter] at hm
    obtain ⟨h1, h2⟩ := hm
    rw [decide_eq_true_eq] at h2
    exact ⟨h1, h2⟩

/-- C5 witness: for provider `openai`, failed model `openai/bad` and
discovery `["good", "nomic-embed-text", "bad"]`, the failed model is
excluded and the normalized fixed default sits last. -/
theorem C5_witness :
    (normalize_litellm_model "openai/bad" "openai" ∉
      (fallback_models_after_load_failure "openai" "openai/bad"
        (["good", "nomic-embed-text", "bad"], "probe")).1) ∧
    (fallback_models_after_load_failure "openai" "openai/bad"
        (["good", "nomic-embed-text", "bad"], "probe")).1.getLast? =
      some (normalize_litellm_model DEFAULT_OPENHANDS_MODEL "openai") := by
  have h := C5_fallback_model_list "openai" "openai/bad"
    (["good", "nomic-embed-text", "bad"], "probe")
  exact ⟨h.2.1, (h.2.2.2.1 (by decide) (by decide) (by decide)).2 (by decide)⟩

/-! ## C2 -/

theorem timeoutRecoveryGo_all_timeout (runAttempt : Nat → Option PyExc) :
    ∀ (remaining runs_made hints_sent : Nat),
      (∀ k, ∃ e, runAttempt k = some e ∧ is_timeout_error e = true) →
      ∃ e, timeoutRecoveryGo runAttempt runs_made hints_sent remaining =
          .propagated e (runs_made + remaining + 1) (hints_sent + remaining) ∧
        runAttempt (runs_made + remaining) = some e := by
  intro remaining
  induction remaining with
  | zero =>
      intro runs hints hall
      obtain ⟨e, he, ht⟩ := hall runs
      refine ⟨e, ?_, by simpa using he⟩
      simp [timeoutRecoveryGo, he]
  | succ r ih =>
      intro runs hints hall
      obtain ⟨e, he, ht⟩ := hall runs
      obtain ⟨e2, he2, hre2⟩ := ih (runs + 1) (hints + 1) hall
      refine ⟨e2, ?_, ?_⟩
      · simp only [timeoutRecoveryGo, he, ht, if_true]
        rw [he2]
        congr 1 <;> omega
      · have heq : runs + (r + 1) = runs + 1 + r := by omega
        rw [heq]
        exact hre2

/-- C2: with `recoveryAttempts = R` and an agent run whose every attempt
raises an exception matching the endpoint-timeout signatures of
`_is_timeout_error`, the Timeout Recovery Loop makes exactly `R + 1` run
calls and sends exactly `R` recovery-hint messages, after which the final
timeout exception propagates (to the caller's failure handling). -/
theorem C2_timeout_recovery_bounds (runAttempt : Nat → Option PyExc) (R : Nat)
    (hall : ∀ k, ∃ e, runAttempt k = some e ∧ is_timeout_error e = true) :
    ∃ e, timeoutRecoveryLoop runAttempt R = .propagated e (R + 1) R ∧
      runAttempt R = some e ∧ is_timeout_error e = true := by
  obtain ⟨e, he, hre⟩ := timeoutRecoveryGo_all_timeout runAttempt R 0 0 hall
  have hre' : runAttempt R = some e := by simpa using hre
  obtain ⟨e2, he2, ht2⟩ := hall R
  have heq : e = e2 := by
    have h3 : some e = some e2 := hre'.symm.trans he2
    exact Option.some.injEq e e2 ▸ h3 |> Option.some.inj
  refine ⟨e, ?_, hre', heq ▸ ht2⟩
  rw [timeoutRecoveryLoop]
  simpa using he

/-- C2 witness: three run calls and two recovery hints for
`recoveryAttempts = 2` against an always-timing-out run. -/
theorem C2_witness :
    timeoutRecoveryLoop c2attempt 2 =
      .propagated { msg := "request timed out", isTimeoutInstance := false,
                    urlErrorReason := none } 3 2 := by
  obtain ⟨e, he, hre, -⟩ := C2_timeout_recovery_bounds c2attempt 2
    (fun k => ⟨{ msg := "request timed out", isTimeoutInstance := false,
                 urlErrorReason := none }, rfl, by decide⟩)
  have heq : e = { msg := "request timed out", isTimeoutInstance := false
                   urlErrorReason := none } := by
    have h2 : c2attempt 2 = some e := hre
    simpa [c2attempt] using h2.symm
  rw [heq] at he
  exact he

/-! ## C1 and C3: candidate-loop invariants -/

theorem runPhase_out (provider base_url : String) (o : LoopOracle) (active : String)
    (rest : List String) (s : LoopState) :
    (loopOutState (runPhase provider base_url o active rest s)).trace.preflighted =
      s.trace.preflighted ∧
    (loopOutState (runPhase provider base_url o active rest s)).trace.runsStarted =
      s.trace.runsStarted ++ [active] := by
  cases hro : o.runOutcome active with
  | success changed => simp [runPhase, loopOutState, hro]
  | raises err =>
      simp only [runPhase, hro]
      split_ifs <;> simp [loopOutState]

theorem toolGate_out (provider base_url : String) (o : LoopOracle) (active : String)
    (rest : List String) (s : LoopState) :
    (loopOutState (toolGate provider base_url o active rest s)).trace.preflighted =
      s.trace.preflighted ∧
    ((loopOutState (toolGate provider base_url o active rest s)).trace.runsStarted =
        s.trace.runsStarted ∨
      (loopOutState (toolGate provider base_url o active rest s)).trace.runsStarted =
        s.trace.runsStarted ++ [active]) := by
  simp only [toolGate]
  split_ifs
  · exact ⟨rfl, Or.inl rfl⟩
  · exact ⟨(runPhase_out provider base_url o active rest s).1,
      Or.inr (runPhase_out provider base_url o active rest s).2⟩
  · exact ⟨rfl, Or.inl rfl⟩
  · exact ⟨(runPhase_out provider base_url o active rest s).1,
      Or.inr (runPhase_out provider base_url o active rest s).2⟩

theorem loopIter_out (provider base_url : String) (o : LoopOracle) (active : String)
    (rest : List String) (s : LoopState) :
    ((loopOutState (loopIter provider base_url o active rest s)).trace.preflighted =
        s.trace.preflighted ∨
      (is_embedding_model active = false ∧
        (loopOutState (loopIter provider base_url o active rest s)).trace.preflighted =
          s.trace.preflighted ++ [active])) ∧
    ((loopOutState (loopIter provider base_url o active rest s)).trace.runsStarted =
        s.trace.runsStarted ∨
      (is_embedding_model active = false ∧
        (loopOutState (loopIter provider base_url o active rest s)).trace.runsStarted =
          s.trace.runsStarted ++ [active])) := by
  by_cases hA : active ∈ s.attempted_models
  · simp [loopIter, hA, loopOutState]
  · by_cases hE : is_embedding_model active = true
    · simp [loopIter, hA, hE, loopOutState]
    · have hE' : is_embedding_model active = false := by
        cases h : is_embedding_model active
        · rfl
        · exact absurd h hE
      by_cases hp : (o.preflight active).1 = true
      · simp only [loopIter]
        rw [if_neg hA, if_neg hE, if_pos hp]
        have hTG := toolGate_out provider base_url o active rest
          { s with models_to_try := rest
                   attempted_models := s.attempted_models ++ [active]
                   trace := { s.trace with
                     preflighted := s.trace.preflighted ++ [active] } }
        constructor
        · exact Or.inr ⟨hE', hTG.1⟩
        · rcases hTG.2 with h | h
          · exact Or.inl h
          · exact Or.inr ⟨hE', h⟩
      · simp only [loopIter]
        rw [if_neg hA, if_neg hE, if_neg hp]
        split_ifs <;> simp [loopOutState, hE']

theorem runLoop_no_embedding (provider base_url : String) (o : LoopOracle) :
    ∀ (fuel : Nat) (s : LoopState) (env : Envelope) (final : LoopState),
      runSelectionLoop provider base_url o fuel s = some (env, final) →
      (∀ m ∈ final.trace.preflighted,
        m ∈ s.trace.preflighted ∨ is_embedding_model m = false) ∧
      (∀ m ∈ final.trace.runsStarted,
        m ∈ s.trace.runsStarted ∨ is_embedding_model m = false) := by
  intro fuel
  induction fuel with
  | zero =>
      intro s env final h
      simp [runSelectionLoop] at h
  | succ n ih =>
      intro s env final h
      rw [runSelectionLoop] at h
      cases hq : s.models_to_try with
      | nil =>
          rw [hq] at h
          dsimp only at h
          simp only [Option.some.injEq, Prod.mk.injEq] at h
          obtain ⟨-, hfin⟩ := h
          subst hfin
          exact ⟨fun m hm => Or.inl hm, fun m hm => Or.inl hm⟩
      | cons active rest =>
          rw [hq] at h
          dsimp only at h
          have hIter := loopIter_out provider base_url o active rest s
          cases hit : loopIter provider base_url o active rest s with
          | inl s2 =>
              rw [hit] at h hIter
              dsimp only at h
              have hrec := ih s2 env final h
              constructor
              · intro m hm
                rcases hrec.1 m hm with h1 | h1
                · rcases hIter.1 with h2 | ⟨hemb, h2⟩
                  · rw [loopOutState] at h2
                    rw [h2] at h1
                    exact Or.inl h1
                  · rw [loopOutState] at h2
                    rw [h2] at h1
                    rcases List.mem_append.mp h1 with h3 | h3
                    · exact Or.inl h3
                    · exact Or.inr ((List.mem_singleton.mp h3) ▸ hemb)
                · exact Or.inr h1
              · intro m hm
                rcases hrec.2 m hm with h1 | h1
                · rcases hIter.2 with h2 | ⟨hemb, h2⟩
                  · rw [loopOutState] at h2
                    rw [h2] at h1
                    exact Or.inl h1
                  · rw [loopOutState] at h2
                    rw [h2] at h1
                    rcases List.mem_append.mp h1 with h3 | h3
                    · exact Or.inl h3
                    · exact Or.inr ((List.mem_singleton.mp h3) ▸ hemb)
                · exact Or.inr h1
          | inr done =>
              rw [hit] at h hIter
              dsimp only at h
              obtain ⟨E, S⟩ := done
              simp only [Option.some.injEq, Prod.mk.injEq] at h
              obtain ⟨-, hfin⟩ := h
              subst hfin
              constructor
              · intro m hm
                rcases hIter.1 with h2 | ⟨hemb, h2⟩
                · rw [loopOutState] at h2
                  rw [h2] at hm
                  exact Or.inl hm
                · rw [loopOutState] at h2
                  rw [h2] at hm
                  rcases List.mem_append.mp hm with h3 | h3
                  · exact Or.inl h3
                  · exact Or.inr ((List.mem_singleton.mp h3) ▸ hemb)
              · intro m hm
                rcases hIter.2 with h2 | ⟨hemb, h2⟩
                · rw [loopOutState] at h2
                  rw [h2] at hm
                  exact Or.inl hm
                · rw [loopOutState] at h2
                  rw [h2] at hm
                  rcases List.mem_append.mp hm with h3 | h3
                  · exact Or.inl h3
                  · exact Or.inr ((List.mem_singleton.mp h3) ▸ hemb)

/-- C1 (amended): no embedding-flagged candidate is ever chat-preflighted
or sent into an agent run, on any terminating execution of the candidate
loop seeded with the resolved model.  (As the counterexample shows, such a
candidate is nonetheless recorded in `attempted_models` before the skip,
so its name can appear in the attempted-models list of a failure
envelope.) -/
theorem C1_embedding_never_preflighted_or_run
    (provider base_url model : String) (o : LoopOracle) (fuel : Nat)
    (env : Envelope) (final : LoopState)
    (hrun : runSelectionLoop provider base_url o fuel (initialLoopState model) =
      some (env, final)) :
    ∀ m, is_embedding_model m = true →
      m ∉ final.trace.preflighted ∧ m ∉ final.trace.runsStarted := by
  obtain ⟨h1, h2⟩ := runLoop_no_embedding provider base_url o fuel _ env final hrun
  intro m hm
  constructor
  · intro hmem
    rcases h1 m hmem with h | h
    · simp [initialLoopState] at h
    · rw [hm] at h
      cases h
  · intro hmem
    rcases h2 m hmem with h | h
    · simp [initialLoopState] at h
    · rw [hm] at h
      cases h

/-- C1 witness: a terminating run on the queue `["openai/nomic-embed-text"]`
whose final trace the theorem then proves free of embedding preflights and
runs. -/
theorem C1_witness :
    runSelectionLoop "openai" "http://h" c1oracle 2
        (initialLoopState "openai/nomic-embed-text") =
      some (exhaustEnvelope ["openai/nomic-embed-text"] [] "",
        { models_to_try := [], attempted_models := ["openai/nomic-embed-text"],
          preflight_failures := [], last_error_text := "",
          trace := { preflighted := [], runsStarted := [] } }) ∧
    ("openai/nomic-embed-text" ∉
        ({ preflighted := [], runsStarted := [] } : LoopTrace).preflighted ∧
      "openai/nomic-embed-text" ∉
        ({ preflighted := [], runsStarted := [] } : LoopTrace).runsStarted) := by
  constructor
  · decide
  · exact C1_embedding_never_preflighted_or_run "openai" "http://h"
      "openai/nomic-embed-text" c1oracle 2
      (exhaustEnvelope ["openai/nomic-embed-text"] [] "")
      { models_to_try := [], attempted_models := ["openai/nomic-embed-text"],
        preflight_failures := [], last_error_text := "",
        trace := { preflighted := [], runsStarted := [] } }
      (by decide) "openai/nomic-embed-text" (by decide)

/-- C1 counterexample: with the queue holding only the embedding-flagged
candidate `openai/nomic-embed-text`, the loop skips it yet records it in
`attempted_models`, and the terminal failure envelope's stderr reports it
in the attempted-models list — refuting the claim that such a name never
appears there. -/
theorem C1_counterexample :
    runSelectionLoop "openai" "http://h" c1oracle 2
        (initialLoopState "openai/nomic-embed-text") =
      some (exhaustEnvelope ["openai/nomic-embed-text"] [] "",
        { models_to_try := [], attempted_models := ["openai/nomic-embed-text"],
          preflight_failures := [], last_error_text := "",
          trace := { preflighted := [], runsStarted := [] } }) ∧
    is_embedding_model "openai/nomic-embed-text" = true ∧
    (exhaustEnvelope ["openai/nomic-embed-text"] [] "").ok = false ∧
    strContains (exhaustEnvelope ["openai/nomic-embed-text"] [] "").stderr
      "openai/nomic-embed-text" = true := by decide

theorem loopIter_hardfail (provider base_url : String) (o : LoopOracle)
    (active : String) (rest : List String) (s : LoopState)
    (hen : o.toolEnabled = true) (hhf : (o.toolDecision active).hard_fail = true) :
    (loopOutState (loopIter provider base_url o active rest s)).trace.runsStarted =
      s.trace.runsStarted ∧
    (∀ env s2, loopIter provider base_url o active rest s = .inr (env, s2) →
      env.ok = false ∧ env.exitCode = 2) := by
  by_cases hA : active ∈ s.attempted_models
  · constructor
    · simp [loopIter, hA, loopOutState]
    · intro env s2 h
      simp [loopIter, hA] at h
  · by_cases hE : is_embedding_model active = true
    · constructor
      · simp [loopIter, hA, hE, loopOutState]
      · intro env s2 h
        simp [loopIter, hA, hE] at h
    · by_cases hp : (o.preflight active).1 = true
      · constructor
        · simp [loopIter, hA, hE, hp, toolGate, hen, hhf, loopOutState]
        · intro env s2 h
          simp only [loopIter, toolGate] at h
          rw [if_neg hA, if_neg hE, if_pos hp] at h
          rw [if_pos hen, if_pos hhf] at h
          simp only [Sum.inr.injEq, Prod.mk.injEq] at h
          obtain ⟨h1, -⟩ := h
          rw [← h1]
          exact ⟨rfl, rfl⟩
      · constructor
        · simp only [loopIter]
          rw [if_neg hA, if_neg hE, if_neg hp]
          split_ifs <;> simp [loopOutState]
        · intro env s2 h
          simp only [loopIter] at h
          rw [if_neg hA, if_neg hE, if_neg hp] at h
          split_ifs at h
          simp only [Sum.inr.injEq, Prod.mk.injEq] at h
          obtain ⟨h1, -⟩ := h
          rw [← h1]
          exact ⟨rfl, rfl⟩

theorem runLoop_hardfail (provider base_url : String) (o : LoopOracle)
    (hen : o.toolEnabled = true)
    (hhf : ∀ m, (o.toolDecision m).hard_fail = true) :
    ∀ (fuel : Nat) (s : LoopState) (env : Envelope) (final : LoopState),
      runSelectionLoop provider base_url o fuel s = some (env, final) →
      env.ok = false ∧ env.exitCode = 2 ∧
      final.trace.runsStarted = s.trace.runsStarted := by
  intro fuel
  induction fuel with
  | zero => intro s env final h; simp [runSelectionLoop] at h
  | succ n ih =>
      intro s env final h
      rw [runSelectionLoop] at h
      cases hq : s.models_to_try with
      | nil =>
          rw [hq] at h
          dsimp only at h
          simp only [Option.some.injEq, Prod.mk.injEq] at h
          obtain ⟨henv, hfin⟩ := h
          subst hfin
          rw [← henv]
          exact ⟨rfl, rfl, rfl⟩
      | cons active rest =>
          rw [hq] at h
          dsimp only at h
          have hIt := loopIter_hardfail provider base_url o active rest s hen (hhf active)
          cases hit : loopIter provider base_url o active rest s with
          | inl s2 =>
              rw [hit] at h hIt
              dsimp only at h
              obtain ⟨hok, hexit, hruns⟩ := ih s2 env final h
              refine ⟨hok, hexit, ?_⟩
              rw [hruns]
              exact hIt.1
          | inr done =>
              rw [hit] at h hIt
              dsimp only at h
              obtain ⟨E, S⟩ := done
              simp only [Option.some.injEq, Prod.mk.injEq] at h
              obtain ⟨hE2, hfin⟩ := h
              subst hfin
              obtain ⟨hok2, hexit2⟩ := hIt.2 E S rfl
              exact ⟨hE2 ▸ hok2, hE2 ▸ hexit2, hIt.1⟩

/-- C3: when the tool-need classifier is enabled and every candidate's
classification is a strict-JSON-mode parse failure (the tail of
`_tool_need_preflight` with `require_strict_json = True` and no parsed
object, which sets `hard_fail = True`), any terminating execution of the
candidate loop returns an envelope with `ok = False` and `exitCode = 2`,
and no agent run is ever started (no LLM/Agent/Conversation construction
is reached for any candidate). -/
theorem C3_strict_parse_failure_short_circuits
    (provider base_url model : String) (o : LoopOracle) (fuel : Nat)
    (env : Envelope) (final : LoopState) (errs : String → String)
    (hen : o.toolEnabled = true)
    (hclassifier : ∀ m, o.toolDecision m = tool_need_classify true none (errs m))
    (hrun : runSelectionLoop provider base_url o fuel (initialLoopState model) =
      some (env, final)) :
    env.ok = false ∧ env.exitCode = 2 ∧ final.trace.runsStarted = [] := by
  have hhf : ∀ m, (o.toolDecision m).hard_fail = true := by
    intro m
    rw [hclassifier m]
    rfl
  obtain ⟨h1, h2, h3⟩ := runLoop_hardfail provider base_url o hen hhf fuel
    (initialLoopState model) env final hrun
  exact ⟨h1, h2, h3⟩

/-- C3 witness: a single-candidate run whose classifier strict-parse
fails: the loop returns the hard-fail envelope (`ok = False`,
`exitCode = 2`) and starts no run. -/
theorem C3_witness :
    runSelectionLoop "openai" "http://h" c3oracle 3 (initialLoopState "openai/m") =
      some (hardFailEnvelope (tool_need_classify true none "bad json"),
        { models_to_try := [], attempted_models := ["openai/m"],
          preflight_failures := [], last_error_text := "",
          trace := { preflighted := ["openai/m"], runsStarted := [] } }) ∧
    ((hardFailEnvelope (tool_need_classify true none "bad json")).ok = false ∧
      (hardFailEnvelope (tool_need_classify true none "bad json")).exitCode = 2 ∧
      ({ models_to_try := [], attempted_models := ["openai/m"],
         preflight_failures := [], last_error_text := "",
         trace := { preflighted := ["openai/m"], runsStarted := [] } } :
            LoopState).trace.runsStarted = []) := by
  constructor
  · decide
  · exact C3_strict_parse_failure_short_circuits "openai" "http://h" "openai/m"
      c3oracle 3 (hardFailEnvelope (tool_need_classify true none "bad json"))
      { models_to_try := [], attempted_models := ["openai/m"],
        preflight_failures := [], last_error_text := "",
        trace := { preflighted := ["openai/m"], runsStarted := [] } }
      (fun _ => "bad json") rfl (fun m => rfl) (by decide)

/-! ## C8 -/

theorem strData_append (a b : String) : (a ++ b).data = a.data ++ b.data := rfl

theorem emitLine_starts_with (e : Envelope) :
    strStartsWith (emitLine e) RESULT_PREFIX = true := by
  show listPrefixOf RESULT_PREFIX.data (emitLine e).data = true
  rw [emitLine, strData_append, strData_append, List.append_assoc]
  exact listPrefixOf_append_self _ _

/-- C8 (amended): every execution of `main` writes exactly one result line
to standard output; that line is the fixed prefix followed by the JSON
result object, whose keys always include `ok`, `summary`, `stderr` and
`exitCode` — but `stdout` is present only on paths that produce one
(`_fail` builds its dict without a `stdout` key, so the claim's "all five
fields" does not hold in general). -/
theorem C8_result_line_protocol (w : MainWorld) :
    (mainEmits w).1.length = 1 ∧
    ∀ e ∈ (mainEmits w).1,
      strStartsWith (emitLine e) RESULT_PREFIX = true ∧
      "ok" ∈ envelopeKeys e ∧ "summary" ∈ envelopeKeys e ∧
      "stderr" ∈ envelopeKeys e ∧ "exitCode" ∈ envelopeKeys e := by
  constructor
  · unfold mainEmits
    repeat' split
    all_goals rfl
  · intro e _he
    refine ⟨emitLine_starts_with e, ?_, ?_, ?_, ?_⟩ <;>
      cases h : e.stdout <;> simp [envelopeKeys, h]

/-- C8 witness: the no-argv invocation emits exactly one line and it
carries the fixed prefix. -/
theorem C8_witness :
    (mainEmits c8world).1.length = 1 ∧
    strStartsWith (emitLine (failEnvelope "Missing base64 job payload" none 2))
      RESULT_PREFIX = true := by
  refine ⟨(C8_result_line_protocol c8world).1, ?_⟩
  exact ((C8_result_line_protocol c8world).2
    (failEnvelope "Missing base64 job payload" none 2) (by decide)).1

/-- C8 counterexample: the result dict built by `_fail` (here for a
missing argv payload) has no `stdout` key, so the emitted JSON object does
not contain all five fields `ok`, `summary`, `stdout`, `stderr`,
`exitCode` as claimed. -/
theorem C8_counterexample :
    mainEmits c8world = ([failEnvelope "Missing base64 job payload" none 2], 2) ∧
    "stdout" ∉ envelopeKeys (failEnvelope "Missing base64 job payload" none 2) := by
  decide
